import Mathlib

/-!
Shallow embedding of the Danish Data Science salary-survey pipeline
(`src/data.py`, function `load_data`; `src/dashboard.py`, support filter).

Raw CSV rows become `RawRow` values: every answer of the survey is a string
in the export, numeric columns are parsed by the CSV reader into numbers
with missing cells as NaN (here `Option Int`), and free-text columns that
may be missing are `Option String`.  The cleaning steps of `load_data`
(lines 46-173 of `src/data.py`) are embedded one by one below; the
acquisition branch (lines 27-43) is embedded separately at the end.
-/

set_option maxRecDepth 8000

namespace SalarySurvey

/-- Exact enrollment string checked by the consent filter
(`src/data.py` line 50). -/
def consentString : String := "I am happy to take part in this survey"

/-- One raw survey response after CSV parsing and column rename
(`src/data.py` lines 55-73).  `consent` is the answer to the consent
question (dropped from the output), `salary` and `bonus` are numeric
columns (NaN as `none`), `tools` and `years_experience` are free-text
answers that can be missing. -/
structure RawRow where
  consent : Option String
  timestamp : String
  salary : Option Int
  bonus : Int
  received_equity : String
  job_title : String
  tools : Option String
  num_employees : String
  num_subordinates : String
  sector : String
  region : String
  educational_background : String
  highest_education : String
  years_experience : Option String
  gender : String
  danish_national : String
  deriving DecidableEq

/-- One row of the clean table returned by `load_data`: the renamed
columns with the `tools` multi-select expanded into eleven boolean
indicator columns (`src/data.py` lines 78-93) and the numeric columns
cast to integers (lines 156-171). -/
structure CleanRow where
  timestamp : String
  salary : Int
  bonus : Int
  received_equity : String
  job_title : String
  uses_high_level_language : Bool
  uses_mid_level_language : Bool
  uses_visualisation_tools : Bool
  uses_deployment_tools : Bool
  uses_version_control : Bool
  uses_spreadsheets : Bool
  uses_query_languages : Bool
  uses_distributed_computing_tools : Bool
  uses_monitoring_tools : Bool
  uses_automl_tools : Bool
  uses_rpa_tools : Bool
  num_employees : String
  num_subordinates : String
  sector : String
  region : String
  educational_background : String
  highest_education : String
  years_experience : Nat
  gender : String
  danish_national : String
  deriving DecidableEq

/-- The only failure the normalization can hit in this model: the
multi-select expansion `df.tools.str.split(";").map(lambda lst: desc in lst)`
(`src/data.py` line 92) raises a TypeError when the `tools` cell is
missing, because `desc in NaN` is not defined. -/
inductive PipeError where
  | toolsNotIterable
  deriving DecidableEq

/-- Splitting a character list on a separator, with the semantics of
Python `str.split(sep)`: the empty string yields `[[]]`, consecutive
separators yield empty fields. -/
def splitOnChar (sep : Char) : List Char → List (List Char)
  | [] => [[]]
  | c :: rest =>
    match splitOnChar sep rest with
    | [] => if c = sep then [[], []] else [[c]]
    | h :: t => if c = sep then [] :: h :: t else (c :: h) :: t

/-- Membership test of the multi-select expansion: `desc in tools.split(";")`
(`src/data.py` line 92). -/
def usesTool (ts label : String) : Bool :=
  (splitOnChar ';' ts.toList).contains label.toList

/-- Digit characters of a string in order, the result of
`str.replace(r"\D", "", regex=True)` (`src/data.py` line 101). -/
def digitsOf (s : String) : List Char :=
  s.toList.filter Char.isDigit

/-- Decimal value of a list of digit characters. -/
def parseDigits (cs : List Char) : Nat :=
  cs.foldl (fun n c => n * 10 + (c.toNat - 48)) 0

/-- Experience parsing (`src/data.py` lines 101-105): strip all non-digit
characters, convert to a number, and turn a missing or empty result into 0
(`pd.to_numeric` maps the empty string to NaN and `fillna(0)` makes it 0). -/
def parseExperience (v : Option String) : Nat :=
  match v with
  | none => 0
  | some s => parseDigits (digitsOf s)

/-- Modelled from the spec wording for comparison only: the leading
numeric token of an answer, meaning the first maximal run of digit
characters. -/
def leadingDigitRun (s : String) : List Char :=
  (s.toList.dropWhile (fun c => !c.isDigit)).takeWhile Char.isDigit

/-- Gender remap table (`src/data.py` lines 108-113). -/
def gender_map : List (String × String) :=
  [("Female (including transgender women)", "female"),
   ("Male (including transgender men)", "male"),
   ("Male as defined by the presence of an X- and a Y-chromosome", "male"),
   ("Prefer not to say", "no answer")]

/-- Sector remap table (`src/data.py` lines 128-136). -/
def sector_map : List (String × String) :=
  [("University", "Education/Research"),
   ("Research", "Education/Research"),
   ("Trading company (Preowned Medical Equipment)", "Retail/E-commerce"),
   ("Consumer industries", "Retail/E-commerce"),
   ("Agency", "Consulting"),
   ("Jobportaler", "Tech"),
   ("Union", "Law")]

/-- Educational-background remap table (`src/data.py` lines 140-145). -/
def educational_background_map : List (String × String) :=
  [("Language and NLP", "Data Science"),
   ("Bs in Math, Bs and Ms in Anthropology", "Maths / Stats"),
   ("It teknolog", "Computer Science"),
   ("Physics", "Natural Sciences")]

/-- Highest-education remap table (`src/data.py` lines 149-153).  Note:
the source constructs this dictionary but never applies it to the
dataframe, so it does not affect the output. -/
def highest_education_map : List (String × String) :=
  [("Doing my Master\x27s", "Undergraduate (e.g., bachelor, professionsbachelor)"),
   ("Dr.scient.", "PhD"),
   ("DrMedSc", "PhD")]

/-- Semantics of `df.replace({col: m})`: an exact match against a key of
the table is replaced by its value, anything else passes through. -/
def applyMap (m : List (String × String)) (x : String) : String :=
  match List.lookup x m with
  | some v => v
  | none => x

/-- Lower-case a character list (ASCII, as in the data). -/
def lowerChars (s : String) : List Char :=
  s.toList.map Char.toLower

/-- Check that `pat` occurs as a contiguous substring of `l`. -/
def hasSubstrList (pat : List Char) : List Char → Bool
  | [] => pat.isEmpty
  | c :: rest => pat.isPrefixOf (c :: rest) || hasSubstrList pat rest

/-- Sector pharma merge (`src/data.py` lines 125-127): any sector whose
lower-cased text contains "pharma" becomes "Pharmaceuticals". -/
def mergePharmaSector (sector : String) : String :=
  if hasSubstrList "pharma".toList (lowerChars sector) then "Pharmaceuticals"
  else sector

/-- One exact-value salary correction: `df.loc[df["salary"] == key, "salary"] = val`. -/
def fixVal (key val s : Int) : Int :=
  if s = key then val else s

/-- The five exact-value salary repairs applied in source order
(`src/data.py` lines 118-122); `int(x / 12)` truncates, which on these
positive values equals integer division. -/
def repairSalary (s : Int) : Int :=
  fixVal 1000000 (1000000 / 12)
    (fixVal 720000 (720000 / 12)
      (fixVal 700000 (700000 / 12)
        (fixVal 65 65000 (fixVal 56 56000 s))))

/-- Build the clean row for a consenting raw row whose `tools` cell is
`ts` and whose positive salary is `s`: multi-select expansion with the
eleven fixed labels (`src/data.py` lines 78-92), experience parsing,
gender remap, salary repair, sector and educational-background merges.
The `highest_education` column is passed through unchanged, because the
source never applies `highest_education_map`. -/
def buildClean (r : RawRow) (ts : String) (s : Int) : CleanRow :=
  { timestamp := r.timestamp
    salary := repairSalary s
    bonus := r.bonus
    received_equity := r.received_equity
    job_title := r.job_title
    uses_high_level_language :=
      usesTool ts "High-level programming languages (e.g., Python, R, MATLAB, SAS, Julia, JavaScript)"
    uses_mid_level_language :=
      usesTool ts "Mid-level programming languages (e.g., C, C++, C#, Java, Go)"
    uses_visualisation_tools :=
      usesTool ts "Advanced visualisation tools (e.g., PowerBI, D3.js, Tableau, Qlik)"
    uses_deployment_tools :=
      usesTool ts "Deployment tools (e.g., Docker, AWS SageMaker, Tensorflow Serving, MLflow)"
    uses_version_control :=
      usesTool ts "Version control systems (e.g., GitHub, GitLab, BitBucket, Beanstalk)"
    uses_spreadsheets :=
      usesTool ts "Spreadsheets (e.g., Excel, Google Sheets)"
    uses_query_languages :=
      usesTool ts "Query languages (e.g., SQL, BigQuery)"
    uses_distributed_computing_tools :=
      usesTool ts "Distributed computing tools (e.g., Kubernetes, Apache Hadoop, Apache Spark, Ray)"
    uses_monitoring_tools :=
      usesTool ts "Monitoring tools (e.g., Arize AI, WhyLabs, Grafana, Evidently, Fiddler)"
    uses_automl_tools :=
      usesTool ts "AutoML / Low-code / No-code tools (e.g., PyCaret, TPOT, Google AutoML, Azure ML)"
    uses_rpa_tools :=
      usesTool ts "RPA tools (e.g., Zaptest, Eggplant, HelpSystems)"
    num_employees := r.num_employees
    num_subordinates := r.num_subordinates
    sector := applyMap sector_map (mergePharmaSector r.sector)
    region := r.region
    educational_background := applyMap educational_background_map r.educational_background
    highest_education := r.highest_education
    years_experience := parseExperience r.years_experience
    gender := applyMap gender_map r.gender
    danish_national := r.danish_national }

/-- Process one consenting raw row.  A missing `tools` cell aborts the
whole pipeline (`src/data.py` line 92 raises on NaN); a missing or
non-positive salary drops the row (`df = df[df.salary > 0]`, line 117,
where a NaN comparison is false); otherwise the clean row is built. -/
def processConsented (r : RawRow) : Except PipeError (Option CleanRow) :=
  match r.tools with
  | none => .error .toolsNotIterable
  | some ts =>
    match r.salary with
    | none => .ok none
    | some s => if 0 < s then .ok (some (buildClean r ts s)) else .ok none

/-- Process the consenting rows in order, propagating the first error. -/
def collect : List RawRow → Except PipeError (List CleanRow)
  | [] => .ok []
  | r :: rs =>
    match processConsented r with
    | .error e => .error e
    | .ok none => collect rs
    | .ok (some cr) =>
      match collect rs with
      | .error e => .error e
      | .ok l => .ok (cr :: l)

/-- The normalization pipeline of `load_data` (`src/data.py` lines 46-173):
keep only rows whose consent answer equals the enrollment string, then
clean each remaining row. -/
def normalize (rows : List RawRow) : Except PipeError (List CleanRow) :=
  collect (rows.filter (fun r => r.consent == some consentString))

/-!
Acquisition branch of `load_data` (`src/data.py` lines 24-43).  The cache
directory is a list of named files; the remote fetch and the
`downloaded_file.save_to(data_path)` call are external, so their outcome
is a parameter: authorization can raise, or the save can be interrupted
after writing a prefix of the bytes to `data_path` — the source writes
directly to the final name `str(data_dir) + "/survey_results.csv"`, with
no temporary name, rename, or cleanup handler.
-/

/-- The cache directory: file names with their contents. -/
structure DirState where
  files : List (String × String)
  deriving DecidableEq

/-- Outcome of the external Backblaze calls: a successful download of the
full contents, an authorization or download error raised by the library,
or a save interrupted partway leaving the bytes written so far. -/
inductive FetchOutcome where
  | ok (bytes : String)
  | authFail (exn : String)
  | saveInterrupted (written : String)
  deriving DecidableEq

/-- Result of the acquisition: a path served from cache, a path of a
fresh download, or a raised exception propagating to the caller (the
source defines no error type of its own). -/
inductive AcquireResult where
  | cached (path : String)
  | downloaded (path : String)
  | raised (exn : String)
  deriving DecidableEq

/-- The files matching `data_dir.glob("*.csv")` (`src/data.py` line 27). -/
def csvFiles (d : DirState) : List (String × String) :=
  d.files.filter (fun f => ".csv".toList.isSuffixOf f.1.toList)

/-- Fixed file name of a fresh download inside the cache directory
(`src/data.py` line 42). -/
def downloadName : String := "survey_results.csv"

/-- Acquisition (`src/data.py` lines 24-43): if the directory holds a csv
file, use the first; otherwise authorize and download, saving straight to
`downloadName`.  A raised authorization error leaves the directory
unchanged; an interrupted save leaves the bytes written so far under the
final name. -/
def acquireRawFile (d : DirState) (outcome : FetchOutcome) :
    AcquireResult × DirState :=
  match csvFiles d with
  | f :: _ => (.cached f.1, d)
  | [] =>
    match outcome with
    | .ok bytes => (.downloaded downloadName, ⟨d.files ++ [(downloadName, bytes)]⟩)
    | .authFail exn => (.raised exn, d)
    | .saveInterrupted w => (.raised "WriteInterrupted", ⟨d.files ++ [(downloadName, w)]⟩)

/-!
Dashboard support filter (`src/dashboard.py` lines 37-39): group the
display rows by the selected column, count rows per category, keep only
the categories with count strictly greater than 5, and restrict the rows
to those categories.
-/

/-- Rows of a given category, counted on the selected column `f`
(`groupby(option).agg(count)`). -/
def groupCount (f : CleanRow → String) (rows : List CleanRow) (c : String) : Nat :=
  (rows.filter (fun r => f r == c)).length

/-- The minimum-support filter: keep the rows whose category has more
than 5 rows (`grouped_df[grouped_df.salary > 5]` followed by
`render_df[render_df[option].isin(allowed_vals)]`). -/
def supportFilter (f : CleanRow → String) (rows : List CleanRow) : List CleanRow :=
  rows.filter (fun r => 5 < groupCount f rows (f r))

/-!
Concrete example rows used by counterexamples and witnesses.
-/

/-- A raw row template with the given salary, tools answer and consent. -/
def exRow (sal : Option Int) (tls : Option String) (cons : Option String) : RawRow :=
  { consent := cons
    timestamp := "2022/03/01 10:00:00"
    salary := sal
    bonus := 0
    received_equity := "No"
    job_title := "Data Scientist"
    tools := tls
    num_employees := "51-200"
    num_subordinates := "0"
    sector := "Tech"
    region := "Hovedstaden"
    educational_background := "Computer Science"
    highest_education := "Masters (e.g., cand.scient., cand.polyt.)"
    years_experience := some "5 years"
    gender := "Prefer not to say"
    danish_national := "Yes" }

/-- The multi-select tools answer of the spec example. -/
def exToolsAnswer : String :=
  "Query languages (e.g., SQL, BigQuery);Spreadsheets (e.g., Excel, Google Sheets)"

/-- A consenting raw row with salary literal 56 and the example tools answer. -/
def exGoodRow : RawRow := exRow (some 56) (some exToolsAnswer) (some consentString)

/-- The clean row the pipeline produces from `exGoodRow`. -/
def exGoodClean : CleanRow := buildClean exGoodRow exToolsAnswer 56

/-- A consenting raw row with salary literal 720000. -/
def exRow720 : RawRow := exRow (some 720000) (some "") (some consentString)

/-- The clean row the pipeline produces from `exRow720`. -/
def exClean720 : CleanRow := buildClean exRow720 "" 720000

/-- A consenting raw row with highest education "Dr.scient.". -/
def exRowDr : RawRow :=
  { exRow (some 40000) (some "") (some consentString) with
    highest_education := "Dr.scient." }

/-- The clean row the pipeline produces from `exRowDr`. -/
def exCleanDr : CleanRow := buildClean exRowDr "" 40000

/-!
Helper lemmas.
-/

/-- A successful lookup returns a value stored in the table. -/
lemma lookup_mem {m : List (String × String)} {x v : String}
    (h : List.lookup x m = some v) : ∃ k, (k, v) ∈ m := by
  induction m with
  | nil => simp [List.lookup] at h
  | cons p t ih =>
    rw [List.lookup] at h
    by_cases hx : x == p.1
    · simp [hx] at h
      exact ⟨p.1, by simp [← h]⟩
    · simp [hx] at h
      obtain ⟨k, hk⟩ := ih h
      exact ⟨k, List.mem_cons_of_mem _ hk⟩

/-- If no value of a remap table is itself a key, the remap is idempotent. -/
lemma applyMap_idem {m : List (String × String)}
    (h : ∀ p ∈ m, List.lookup p.2 m = none) (x : String) :
    applyMap m (applyMap m x) = applyMap m x := by
  unfold applyMap
  cases hx : List.lookup x m with
  | none => simp [hx]
  | some v =>
    obtain ⟨k, hk⟩ := lookup_mem hx
    have hv : List.lookup v m = none := h (k, v) hk
    simp [hv]

/-- Every clean row produced by `collect` comes from a row of the input
list. -/
lemma collect_mem {rs : List RawRow} {out : List CleanRow} {cr : CleanRow}
    (h : collect rs = .ok out) (hm : cr ∈ out) :
    ∃ r ∈ rs, processConsented r = .ok (some cr) := by
  induction rs generalizing out with
  | nil =>
    simp [collect] at h
    subst h
    simp at hm
  | cons r t ih =>
    rw [collect] at h
    cases hp : processConsented r with
    | error e => simp [hp] at h
    | ok c =>
      cases c with
      | none =>
        simp [hp] at h
        obtain ⟨r', hr', hpr'⟩ := ih h hm
        exact ⟨r', List.mem_cons_of_mem _ hr', hpr'⟩
      | some cr' =>
        simp [hp] at h
        cases ht : collect t with
        | error e => simp [ht] at h
        | ok l =>
          simp [ht] at h
          subst h
          rcases List.mem_cons.mp hm with hcr | hcr
          · exact ⟨r, List.mem_cons_self _ _, by rw [hp, hcr]⟩
          · obtain ⟨r', hr', hpr'⟩ := ih ht hcr
            exact ⟨r', List.mem_cons_of_mem _ hr', hpr'⟩

/-- If any row of the list fails the multi-select expansion, `collect`
fails with that error. -/
lemma collect_error {rs : List RawRow} {r : RawRow}
    (hr : r ∈ rs) (hp : processConsented r = .error .toolsNotIterable) :
    collect rs = .error .toolsNotIterable := by
  induction rs with
  | nil => simp at hr
  | cons r' t ih =>
    rcases List.mem_cons.mp hr with he | ht
    · subst he
      rw [collect, hp]
    · rw [collect]
      cases hp' : processConsented r' with
      | error e => cases e; rfl
      | ok c =>
        cases c with
        | none => exact ih ht
        | some cr => rw [ih ht]

/-- Inversion of a successful row cleaning: the raw row had a tools
answer and a positive salary, and the clean row is built from them. -/
lemma processConsented_ok_some {r : RawRow} {cr : CleanRow}
    (h : processConsented r = .ok (some cr)) :
    ∃ ts s, r.tools = some ts ∧ r.salary = some s ∧ 0 < s ∧
      cr = buildClean r ts s := by
  unfold processConsented at h
  cases htl : r.tools with
  | none => rw [htl] at h; simp at h
  | some ts =>
    rw [htl] at h
    cases hs : r.salary with
    | none => rw [hs] at h; simp at h
    | some s =>
      rw [hs] at h
      by_cases hpos : 0 < s
      · simp [hpos] at h
        exact ⟨ts, s, rfl, rfl, hpos, h.symm⟩
      · simp [hpos] at h

/-- The salary repair maps positive values to positive values. -/
lemma repairSalary_pos {s : Int} (h : 0 < s) : 0 < repairSalary s := by
  unfold repairSalary fixVal
  split <;> try norm_num
  split <;> try norm_num
  split <;> try norm_num
  split <;> try norm_num
  split <;> try norm_num
  exact h

/-- Provenance through `normalize`: every clean row comes from a
consenting raw row with a tools answer and a positive salary. -/
lemma normalize_mem {rows : List RawRow} {out : List CleanRow} {cr : CleanRow}
    (h : normalize rows = .ok out) (hm : cr ∈ out) :
    ∃ r ∈ rows, r.consent = some consentString ∧
      processConsented r = .ok (some cr) := by
  obtain ⟨r, hr, hpr⟩ := collect_mem h hm
  rw [List.mem_filter] at hr
  refine ⟨r, hr.1, ?_, hpr⟩
  have := hr.2
  simpa using this

/-!
Claim theorems.
-/

/-- Claim C1, counterexample: a raw row can consent and still yield no
clean row — the salary filter drops the consenting zero-salary row, so
consent alone does not imply presence in the clean table. -/
theorem consent_gate_iff_counterexample :
    (exRow (some 0) (some "") (some consentString)).consent = some consentString ∧
    normalize [exRow (some 0) (some "") (some consentString)] = .ok [] :=
  ⟨rfl, rfl⟩

/-- Claim C1, amended: every row of the clean table comes from a
consenting raw row, and dissenting or missing-consent rows contribute
nothing to the output (removing them first does not change the result);
consent is necessary but not sufficient, since later steps can still drop
a consenting row. -/
theorem consent_gate_amended (rows : List RawRow) :
    (∀ out cr, normalize rows = .ok out → cr ∈ out →
      ∃ r ∈ rows, r.consent = some consentString ∧
        processConsented r = .ok (some cr)) ∧
    normalize rows =
      normalize (rows.filter (fun r => r.consent == some consentString)) := by
  constructor
  · intro out cr h hm
    exact normalize_mem h hm
  · show collect _ = collect _
    rw [List.filter_filter]
    congr 1
    apply List.filter_congr
    intro x _
    exact (Bool.and_self _).symm

/-- Claim C1, witness: the amended theorem applied to a one-row input. -/
theorem consent_gate_witness :
    ∃ r ∈ [exGoodRow], r.consent = some consentString ∧
      processConsented r = .ok (some exGoodClean) :=
  (consent_gate_amended [exGoodRow]).1 [exGoodClean] exGoodClean rfl
    (List.mem_singleton.mpr rfl)

/-- Claim C2, counterexample: the pipeline also alters the salary literal
720000, which is not among the three literals the claim lists, so the
claim that no other value is altered fails on the code. -/
theorem salary_repair_listed_counterexample :
    normalize [exRow720] = .ok [exClean720] ∧ exClean720.salary = 60000 ∧
    (720000 : Int) ∉ ([56, 700000, 65] : List Int) ∧ (60000 : Int) ≠ 720000 :=
  ⟨rfl, rfl, by decide, by decide⟩

/-- Claim C2, amended: the repair step maps 56 to 56000, 700000 to 58333
and 65 to 65000 as claimed, but its exact-match table also maps 720000 to
60000 and 1000000 to 83333; every value outside these five literals is
left unchanged. -/
theorem salary_repair_amended :
    repairSalary 56 = 56000 ∧ repairSalary 700000 = 58333 ∧
    repairSalary 65 = 65000 ∧ repairSalary 720000 = 60000 ∧
    repairSalary 1000000 = 83333 ∧
    ∀ s : Int, s ∉ ([56, 65, 700000, 720000, 1000000] : List Int) →
      repairSalary s = s := by
  refine ⟨rfl, rfl, rfl, rfl, rfl, ?_⟩
  intro s hs
  simp only [List.mem_cons, List.not_mem_nil, or_false, not_or] at hs
  obtain ⟨h1, h2, h3, h4, h5⟩ := hs
  unfold repairSalary fixVal
  simp [h1, h2, h3, h4, h5]

/-- Claim C2, witness: a salary outside the repair table passes through. -/
theorem salary_repair_witness : repairSalary 12345 = 12345 :=
  salary_repair_amended.2.2.2.2.2 12345 (by decide)

/-- Claim C3: the highest-education remap table maps "Dr.scient." to
"PhD", but the pipeline never applies it, so the clean row keeps the raw
label "Dr.scient." instead of the claimed "PhD". -/
theorem highest_education_unapplied :
    normalize [exRowDr] = .ok [exCleanDr] ∧
    exCleanDr.highest_education = "Dr.scient." ∧
    applyMap highest_education_map "Dr.scient." = "PhD" :=
  ⟨rfl, rfl, rfl⟩

/-- Claim C4, counterexample: the code strips every non-digit character
and concatenates all digit runs, so "1 to 2 years" parses to 12, not to
the leading numeric token 1. -/
theorem experience_leading_token_counterexample :
    parseExperience (some "1 to 2 years") = 12 ∧
    parseDigits (leadingDigitRun "1 to 2 years") = 1 ∧ (12 : Nat) ≠ 1 :=
  ⟨rfl, rfl, by decide⟩

/-- Claim C4, amended: experience parsing strips all non-digit characters
and parses the concatenation of every digit run (so the result depends
only on the digit characters of the answer), "5 years" parses to 5, an
answer without digits such as "Less than a year" and a missing answer
parse to 0, and the result is a natural number. -/
theorem experience_parsing_amended :
    parseExperience (some "5 years") = 5 ∧
    parseExperience (some "Less than a year") = 0 ∧
    parseExperience none = 0 ∧
    (∀ s : String, digitsOf s = [] → parseExperience (some s) = 0) ∧
    (∀ s : String,
      parseExperience (some (String.mk (digitsOf s))) = parseExperience (some s)) := by
  refine ⟨rfl, rfl, rfl, ?_, ?_⟩
  · intro s hs
    simp [parseExperience, hs, parseDigits]
  · intro s
    show parseDigits (digitsOf (String.mk (digitsOf s))) = parseDigits (digitsOf s)
    congr 1
    show (digitsOf s).filter Char.isDigit = digitsOf s
    unfold digitsOf
    rw [List.filter_filter]
    apply List.filter_congr
    intro x _
    exact (Bool.and_self _)

/-- Claim C4, witness: the amended theorem applied to a digit-free answer. -/
theorem experience_parsing_witness : parseExperience (some "abc") = 0 :=
  experience_parsing_amended.2.2.2.1 "abc" rfl

/-- Claim C5: every row of the clean table has a positive salary — the
filter keeps only positive raw salaries (missing ones compare false) and
each repair target is itself positive. -/
theorem salary_positive (rows : List RawRow) (out : List CleanRow)
    (cr : CleanRow) (h : normalize rows = .ok out) (hm : cr ∈ out) :
    0 < cr.salary := by
  obtain ⟨r, _, _, hpr⟩ := normalize_mem h hm
  obtain ⟨ts, s, _, _, hpos, hcr⟩ := processConsented_ok_some hpr
  rw [hcr]
  exact repairSalary_pos hpos

/-- Claim C5, witness: the theorem applied to a one-row input. -/
theorem salary_positive_witness : 0 < exGoodClean.salary :=
  salary_positive [exGoodRow] [exGoodClean] exGoodClean rfl
    (List.mem_singleton.mpr rfl)

/-- Claim C6: on the spec example the query-language and spreadsheet
indicators are true and the nine others false, and in general every clean
row carries, for each of the eleven fixed labels, exactly the membership
of that label in the raw tools answer split on ";". -/
theorem tool_indicator_correct :
    (normalize [exGoodRow] = .ok [exGoodClean] ∧
     exGoodClean.uses_query_languages = true ∧
     exGoodClean.uses_spreadsheets = true ∧
     exGoodClean.uses_high_level_language = false ∧
     exGoodClean.uses_mid_level_language = false ∧
     exGoodClean.uses_visualisation_tools = false ∧
     exGoodClean.uses_deployment_tools = false ∧
     exGoodClean.uses_version_control = false ∧
     exGoodClean.uses_distributed_computing_tools = false ∧
     exGoodClean.uses_monitoring_tools = false ∧
     exGoodClean.uses_automl_tools = false ∧
     exGoodClean.uses_rpa_tools = false) ∧
    ∀ rows out cr, normalize rows = .ok out → cr ∈ out →
      ∃ r ∈ rows, ∃ ts, r.tools = some ts ∧
        cr.uses_high_level_language =
          usesTool ts "High-level programming languages (e.g., Python, R, MATLAB, SAS, Julia, JavaScript)" ∧
        cr.uses_mid_level_language =
          usesTool ts "Mid-level programming languages (e.g., C, C++, C#, Java, Go)" ∧
        cr.uses_visualisation_tools =
          usesTool ts "Advanced visualisation tools (e.g., PowerBI, D3.js, Tableau, Qlik)" ∧
        cr.uses_deployment_tools =
          usesTool ts "Deployment tools (e.g., Docker, AWS SageMaker, Tensorflow Serving, MLflow)" ∧
        cr.uses_version_control =
          usesTool ts "Version control systems (e.g., GitHub, GitLab, BitBucket, Beanstalk)" ∧
        cr.uses_spreadsheets =
          usesTool ts "Spreadsheets (e.g., Excel, Google Sheets)" ∧
        cr.uses_query_languages =
          usesTool ts "Query languages (e.g., SQL, BigQuery)" ∧
        cr.uses_distributed_computing_tools =
          usesTool ts "Distributed computing tools (e.g., Kubernetes, Apache Hadoop, Apache Spark, Ray)" ∧
        cr.uses_monitoring_tools =
          usesTool ts "Monitoring tools (e.g., Arize AI, WhyLabs, Grafana, Evidently, Fiddler)" ∧
        cr.uses_automl_tools =
          usesTool ts "AutoML / Low-code / No-code tools (e.g., PyCaret, TPOT, Google AutoML, Azure ML)" ∧
        cr.uses_rpa_tools =
          usesTool ts "RPA tools (e.g., Zaptest, Eggplant, HelpSystems)" := by
  constructor
  · exact ⟨rfl, rfl, rfl, rfl, rfl, rfl, rfl, rfl, rfl, rfl, rfl, rfl⟩
  · intro rows out cr h hm
    obtain ⟨r, hr, _, hpr⟩ := normalize_mem h hm
    obtain ⟨ts, s, htl, _, _, hcr⟩ := processConsented_ok_some hpr
    subst hcr
    exact ⟨r, hr, ts, htl, rfl, rfl, rfl, rfl, rfl, rfl, rfl, rfl, rfl, rfl, rfl⟩

/-- Claim C6, witness: the general part of the theorem applied to a
one-row input. -/
theorem tool_indicator_witness :
    ∃ r ∈ [exGoodRow], ∃ ts, r.tools = some ts ∧
      exGoodClean.uses_high_level_language =
        usesTool ts "High-level programming languages (e.g., Python, R, MATLAB, SAS, Julia, JavaScript)" ∧
      exGoodClean.uses_mid_level_language =
        usesTool ts "Mid-level programming languages (e.g., C, C++, C#, Java, Go)" ∧
      exGoodClean.uses_visualisation_tools =
        usesTool ts "Advanced visualisation tools (e.g., PowerBI, D3.js, Tableau, Qlik)" ∧
      exGoodClean.uses_deployment_tools =
        usesTool ts "Deployment tools (e.g., Docker, AWS SageMaker, Tensorflow Serving, MLflow)" ∧
      exGoodClean.uses_version_control =
        usesTool ts "Version control systems (e.g., GitHub, GitLab, BitBucket, Beanstalk)" ∧
      exGoodClean.uses_spreadsheets =
        usesTool ts "Spreadsheets (e.g., Excel, Google Sheets)" ∧
      exGoodClean.uses_query_languages =
        usesTool ts "Query languages (e.g., SQL, BigQuery)" ∧
      exGoodClean.uses_distributed_computing_tools =
        usesTool ts "Distributed computing tools (e.g., Kubernetes, Apache Hadoop, Apache Spark, Ray)" ∧
      exGoodClean.uses_monitoring_tools =
        usesTool ts "Monitoring tools (e.g., Arize AI, WhyLabs, Grafana, Evidently, Fiddler)" ∧
      exGoodClean.uses_automl_tools =
        usesTool ts "AutoML / Low-code / No-code tools (e.g., PyCaret, TPOT, Google AutoML, Azure ML)" ∧
      exGoodClean.uses_rpa_tools =
        usesTool ts "RPA tools (e.g., Zaptest, Eggplant, HelpSystems)" :=
  tool_indicator_correct.2 [exGoodRow] [exGoodClean] exGoodClean rfl
    (List.mem_singleton.mpr rfl)

/-- Claim C7: the gender, sector and educational-background remap tables
are idempotent — no target value of any of the three tables is itself a
key, so applying a table twice equals applying it once. -/
theorem remap_idempotent (x : String) :
    applyMap gender_map (applyMap gender_map x) = applyMap gender_map x ∧
    applyMap sector_map (applyMap sector_map x) = applyMap sector_map x ∧
    applyMap educational_background_map
        (applyMap educational_background_map x) =
      applyMap educational_background_map x :=
  ⟨applyMap_idem (by decide) x, applyMap_idem (by decide) x,
   applyMap_idem (by decide) x⟩

/-- Claim C8, counterexample: when the cache is empty and the save of the
download is interrupted, the partial bytes sit under the final name
"survey_results.csv", the error is the raised library exception (the
repository defines no DataUnavailable type), and the next call serves the
partial file from cache. -/
theorem acquisition_atomicity_counterexample :
    (acquireRawFile ⟨[]⟩ (.saveInterrupted "partial bytes")).1 =
      .raised "WriteInterrupted" ∧
    csvFiles (acquireRawFile ⟨[]⟩ (.saveInterrupted "partial bytes")).2 =
      [("survey_results.csv", "partial bytes")] ∧
    (acquireRawFile (acquireRawFile ⟨[]⟩ (.saveInterrupted "partial bytes")).2
        (.authFail "unreachable")).1 = .cached "survey_results.csv" :=
  ⟨rfl, rfl, rfl⟩

/-- Claim C8, amended: with an empty cache, an authentication or download
failure propagates the underlying library exception (no repo-defined
DataUnavailable type) and leaves the directory unchanged; but the save
writes directly to the final cached name, so a failure during saving
leaves a partial file that satisfies the cache-detection check on the
next call. -/
theorem acquisition_failure_amended (d : DirState) (exn w : String)
    (o : FetchOutcome) (h : csvFiles d = []) :
    acquireRawFile d (.authFail exn) = (.raised exn, d) ∧
    (acquireRawFile (acquireRawFile d (.saveInterrupted w)).2 o).1 =
      .cached downloadName := by
  have h' : List.filter (fun f => ".csv".toList.isSuffixOf f.1.toList) d.files
      = [] := h
  constructor
  · unfold acquireRawFile
    rw [h]
  · have hstep : (acquireRawFile d (.saveInterrupted w)).2 =
        ⟨d.files ++ [(downloadName, w)]⟩ := by
      unfold acquireRawFile
      rw [h]
    rw [hstep]
    have hcsv : csvFiles ⟨d.files ++ [(downloadName, w)]⟩ =
        [(downloadName, w)] := by
      unfold csvFiles
      rw [List.filter_append, h']
      rfl
    unfold acquireRawFile
    rw [hcsv]

/-- Claim C8, witness: the amended theorem applied to an empty cache. -/
theorem acquisition_failure_witness :
    acquireRawFile ⟨[]⟩ (.authFail "B2ConnectionError") =
      (.raised "B2ConnectionError", ⟨[]⟩) ∧
    (acquireRawFile (acquireRawFile ⟨[]⟩ (.saveInterrupted "x")).2
        (.authFail "e")).1 = .cached downloadName :=
  acquisition_failure_amended ⟨[]⟩ "B2ConnectionError" "x" (.authFail "e") rfl

/-- Claim C9: a clean row survives the minimum-support filter exactly
when its category has strictly more than 5 rows, and every retained
category still has strictly more than 5 rows inside the filtered output,
so no category with count at most 5 appears. -/
theorem support_filter_correct (f : CleanRow → String) (rows : List CleanRow)
    (r : CleanRow) :
    (r ∈ supportFilter f rows ↔ r ∈ rows ∧ 5 < groupCount f rows (f r)) ∧
    (r ∈ supportFilter f rows →
      5 < groupCount f (supportFilter f rows) (f r)) := by
  have hmemiff : r ∈ supportFilter f rows ↔
      r ∈ rows ∧ 5 < groupCount f rows (f r) := by
    unfold supportFilter
    rw [List.mem_filter]
    simp
  refine ⟨hmemiff, ?_⟩
  intro hr
  have hm := hmemiff.mp hr
  have hcount : groupCount f (supportFilter f rows) (f r) =
      groupCount f rows (f r) := by
    unfold groupCount supportFilter
    rw [List.filter_filter]
    congr 1
    apply List.filter_congr
    intro x _
    cases hb : (f x == f r) with
    | false => simp [hb]
    | true =>
      have hfx : f x = f r := eq_of_beq hb
      simp [hb, hfx, hm.2]
  rw [hcount]
  exact hm.2

/-- Claim C9, witness: the theorem applied to six rows of one category. -/
theorem support_filter_witness :
    5 < groupCount (fun r => r.sector)
      (supportFilter (fun r => r.sector) (List.replicate 6 exGoodClean))
      exGoodClean.sector :=
  (support_filter_correct (fun r => r.sector) (List.replicate 6 exGoodClean)
    exGoodClean).2 (by decide)

/-- Claim C10: a consenting raw row with a missing tools answer makes the
whole pipeline fail with the multi-select expansion error instead of
producing a clean row with all indicator columns false. -/
theorem missing_tools_aborts (rows : List RawRow) (r : RawRow)
    (hr : r ∈ rows) (hc : r.consent = some consentString)
    (ht : r.tools = none) :
    normalize rows = .error PipeError.toolsNotIterable := by
  have hp : processConsented r = .error .toolsNotIterable := by
    unfold processConsented
    rw [ht]
  apply collect_error _ hp
  rw [List.mem_filter]
  exact ⟨hr, by simp [hc]⟩

/-- Claim C10, witness: the theorem applied to a one-row input with a
missing tools answer. -/
theorem missing_tools_aborts_witness :
    normalize [exRow (some 40000) none (some consentString)] =
      .error PipeError.toolsNotIterable :=
  missing_tools_aborts [exRow (some 40000) none (some consentString)]
    (exRow (some 40000) none (some consentString))
    (List.mem_singleton.mpr rfl) rfl rfl

end SalarySurvey
